import Mathlib

/-!
Verification development for the Victus trust core: the modules
`victus/core/schemas.py`, `victus/core/policy.py`, `victus/core/executor.py`,
`victus/core/sanitization.py`, `victus/core/confidence.py`,
`victus/core/llm_health.py` and `victus/config/runtime.py`.

Modelling conventions:
* Python dataclasses become Lean structures with the same field names.
* Python `Dict[str, Any]` argument maps become association lists
  `List (String × Val)` where `Val` is a small universe of JSON-like values
  (`None`, strings, integers, booleans); lookups mirror `dict.get`.
* Python floats are modelled as exact rationals (`ℚ`).
* Exceptions become `Except`: each `raise` site gets its own constructor of
  an error inductive, so theorems can distinguish which check fired.
* `time.monotonic()` is threaded explicitly: each breaker operation that
  reads the clock takes the current time as an extra argument.
* The environment-derived LLM provider (`get_llm_provider`) is passed to
  `sanitize_plan` as an explicit argument.
* The keyed SHA-256 hash of `compute_policy_signature` is modelled
  symbolically: the signature value is the canonical payload itself
  (a collision-free idealization of the keyed hash, matching the spec
  requirement of a deterministic, key-order-independent encoding with
  SHA-256-grade collision resistance).  The empty-string signature of the
  Python code corresponds to `Option.none`.
* `str.strip()` and `str.lower()` are modelled character-wise so that they
  evaluate inside the kernel.
-/

namespace Victus

/-- Character-wise model of Python `str.strip()`. -/
def strStrip (s : String) : String :=
  ⟨((s.data.dropWhile Char.isWhitespace).reverse.dropWhile Char.isWhitespace).reverse⟩

/-- Character-wise model of Python `str.lower()`. -/
def strLower (s : String) : String := ⟨s.data.map Char.toLower⟩

/-- JSON-like argument values (Python `Any` as used by the core). -/
inductive Val where
  | vnone
  | str (s : String)
  | int (n : Int)
  | bool (b : Bool)
deriving DecidableEq, Repr

/-- Model of `dict.get` on a string-keyed argument map: first binding wins,
absent key gives `none` (which also stands for Python `None`-from-get). -/
def argsGet (args : List (String × Val)) (k : String) : Option Val :=
  match args.find? (fun kv => kv.1 == k) with
  | some kv => some kv.2
  | none => none

/-- Model of `PrivacySettings` from `schemas.py`. -/
structure PrivacySettings where
  allow_screenshot : Bool
  allow_send_to_openai : Bool
  allow_store_images : Bool
deriving DecidableEq, Repr

/-- Model of `Context` from `schemas.py` (timestamp modelled as a number). -/
structure Context where
  session_id : String
  timestamp : Nat
  mode : String
  foreground_app : Option String
  user_confirmed : Bool
  privacy : PrivacySettings
deriving DecidableEq, Repr

/-- Model of `StepIO` flags from `schemas.py` (source class name `StepIO`). -/
structure StepIo where
  uses_screenshot : Bool
  uses_user_text : Bool
deriving DecidableEq, Repr

/-- Model of `StepOutputs` flags from `schemas.py`. -/
structure StepOutputs where
  produces_text : Bool
  produces_side_effect : Bool
deriving DecidableEq, Repr

/-- Model of `PlanStep` from `schemas.py`. -/
structure PlanStep where
  id : String
  tool : String
  action : String
  args : List (String × Val)
  inputs : StepIo
  outputs : StepOutputs
deriving DecidableEq, Repr

/-- Model of `DataOutbound` from `schemas.py`. -/
structure DataOutbound where
  to_openai : Bool
  content_types : List String
  redaction_required : Bool
deriving DecidableEq, Repr

/-- Model of `Plan` from `schemas.py`. -/
structure Plan where
  goal : String
  domain : String
  steps : List PlanStep
  requires_confirmation : Bool
  data_outbound : DataOutbound
  risk : String
  notes : String
  origin : String
deriving DecidableEq, Repr

/-- The `Plan.__post_init__` construction invariant. -/
def Plan.valid (p : Plan) : Bool :=
  (p.domain == "system" || p.domain == "productivity" || p.domain == "mixed") &&
  (p.risk == "low" || p.risk == "medium" || p.risk == "high") &&
  (!p.steps.isEmpty) &&
  (p.origin == "planner" || p.origin == "router")

/-- Model of `ApprovalConstraints` from `schemas.py`. -/
structure ApprovalConstraints where
  time_limit_sec : Int
  no_screenshot_store : Bool
  redact_before_openai : Bool
deriving DecidableEq, Repr

/-- Per-step projection entering the signature payload
(the step dict built inside `compute_policy_signature`).  The argument map
is canonicalized by key order, mirroring `json.dumps(..., sort_keys=True)`. -/
structure SigStep where
  id : String
  tool : String
  action : String
  args : List (String × Val)
  inputs : StepIo
  outputs : StepOutputs
deriving DecidableEq, Repr

/-- Insert one key-value pair into a key-sorted association list. -/
def insertArg (p : String × Val) : List (String × Val) → List (String × Val)
  | [] => [p]
  | q :: rest => if (compare p.1 q.1).isLE then p :: q :: rest else q :: insertArg p rest

/-- Key-sorted canonical form of an argument map, mirroring the
key-order-independence of `json.dumps(..., sort_keys=True)`. -/
def canonArgs : List (String × Val) → List (String × Val)
  | [] => []
  | p :: rest => insertArg p (canonArgs rest)

/-- The canonical payload serialized and hashed by `compute_policy_signature`:
plan goal, domain, risk, requires_confirmation, data_outbound, the per-step
projections, the approval fields, and the shared secret. -/
structure SignaturePayload where
  goal : String
  domain : String
  risk : String
  plan_requires_confirmation : Bool
  data_outbound : DataOutbound
  steps : List SigStep
  approved_steps : List String
  approval_requires_confirmation : Bool
  constraints : ApprovalConstraints
  secret : String
deriving DecidableEq, Repr

/-- Model of `compute_policy_signature` from `policy.py`: deterministic signature bound
to the plan and approval details (hash modelled as the canonical payload). -/
def compute_policy_signature (plan : Plan) (approved_steps : List String)
    (constraints : ApprovalConstraints) (requires_confirmation : Bool)
    (secret : String) : SignaturePayload :=
  { goal := plan.goal
    domain := plan.domain
    risk := plan.risk
    plan_requires_confirmation := plan.requires_confirmation
    data_outbound := plan.data_outbound
    steps := plan.steps.map (fun step =>
      { id := step.id, tool := step.tool, action := step.action,
        args := canonArgs step.args, inputs := step.inputs, outputs := step.outputs })
    approved_steps := approved_steps
    approval_requires_confirmation := requires_confirmation
    constraints := constraints
    secret := secret }

/-- Model of `Approval` from `schemas.py` (empty signature string modelled as `none`). -/
structure Approval where
  approved : Bool
  approved_steps : List String
  requires_confirmation : Bool
  constraints : ApprovalConstraints
  policy_signature : Option SignaturePayload
deriving DecidableEq, Repr

/-- Model of `PolicyError` from `schemas.py`, with one constructor per `raise` site of
`policy.py`. -/
inductive PolicyError where
  | openaiNotPermitted
  | screenshotNotPermitted
  | denylisted (fully_qualified : String)
  | unknownTool (tool : String)
  | actionNotAllowlisted (fully_qualified : String)
  | toolDomainNotPermitted (tool : String)
  | systemActionNotAllowlisted (fully_qualified : String)
  | unknownToolDomain (tool : String)
  | productivityToolInSystemPlan
  | systemToolInProductivityPlan
deriving DecidableEq, Repr

/-- Model of `PolicyEngine` state (`policy.py` `__init__`): the constructor-injectable
allowlist, denylist and signature secret.  The tool-domain map is hard-coded
in the source and therefore modelled as a fixed function below. -/
structure PolicyEngine where
  allowlist : List (String × List String)
  denylist : List String
  signature_secret : String

/-- The default allowlist from `PolicyEngine.__init__`. -/
def defaultAllowlist : List (String × List String) :=
  [("system", ["open_app", "net_snapshot"]),
   ("spotify", ["play"]),
   ("gmail", ["send"]),
   ("openai", ["draft", "draft_email", "summarize_text"]),
   ("docs", ["create"])]

/-- The default denylist from `PolicyEngine.__init__`. -/
def defaultDenylist : List String := ["raw_shell", "kernel_exec", "firewall_modify"]

/-- The default `signature_secret` from `PolicyEngine.__init__`. -/
def defaultSecret : String := "signed-policy"

/-- A `PolicyEngine` built with all constructor defaults. -/
def defaultPolicyEngine : PolicyEngine :=
  { allowlist := defaultAllowlist, denylist := defaultDenylist,
    signature_secret := defaultSecret }

/-- The hard-coded `tool_domains` map of `PolicyEngine.__init__`. -/
def tool_domains (tool : String) : Option String :=
  if tool == "system" then some "system"
  else if tool == "spotify" then some "productivity"
  else if tool == "gmail" then some "productivity"
  else if tool == "openai" then some "productivity"
  else if tool == "docs" then some "productivity"
  else none

/-- Model of `self.allowlist.get(tool, set())`. -/
def PolicyEngine.allowedActions (pe : PolicyEngine) (tool : String) : List String :=
  match pe.allowlist.find? (fun kv => kv.1 == tool) with
  | some kv => kv.2
  | none => []

/-- Model of `tool in self.allowlist`. -/
def PolicyEngine.toolAllowlisted (pe : PolicyEngine) (tool : String) : Bool :=
  (pe.allowlist.find? (fun kv => kv.1 == tool)).isSome

/-- Model of `PolicyEngine._is_domain_permitted`. -/
def is_domain_permitted (tool : String) : Bool :=
  match tool_domains tool with
  | some d => d == "system" || d == "productivity"
  | none => false

/-- Model of `PolicyEngine._validate_step`: denylist first (fully-qualified or bare
action), then allowlist membership, then domain permission. -/
def PolicyEngine.validate_step (pe : PolicyEngine) (step : PlanStep) :
    Except PolicyError Unit :=
  let fully_qualified := step.tool ++ "." ++ step.action
  if pe.denylist.contains fully_qualified || pe.denylist.contains step.action then
    .error (.denylisted fully_qualified)
  else if !pe.toolAllowlisted step.tool then
    .error (.unknownTool step.tool)
  else if !(pe.allowedActions step.tool).contains step.action then
    .error (.actionNotAllowlisted fully_qualified)
  else if !is_domain_permitted step.tool then
    .error (.toolDomainNotPermitted step.tool)
  else
    .ok ()

/-- Model of `PolicyEngine._validate_system_action`. -/
def PolicyEngine.validate_system_action (pe : PolicyEngine) (step : PlanStep) :
    Except PolicyError Unit :=
  if !(pe.allowedActions "system").contains step.action then
    .error (.systemActionNotAllowlisted (step.tool ++ "." ++ step.action))
  else
    .ok ()

/-- Model of `PolicyEngine._requires_gmail_confirmation`. -/
def requires_gmail_confirmation (plan : Plan) : Bool :=
  plan.steps.any (fun step => step.tool == "gmail" && step.action == "send")

/-- The per-step body of the `enforce_plan_domain` loop. -/
def enforce_domain_step (domain : String) (step : PlanStep) : Except PolicyError Unit :=
  match tool_domains step.tool with
  | none => .error (.unknownToolDomain step.tool)
  | some tool_domain =>
    if domain == "mixed" then .ok ()
    else if domain == "system" && tool_domain != "system" then
      .error .productivityToolInSystemPlan
    else if domain == "productivity" && tool_domain != "productivity" then
      .error .systemToolInProductivityPlan
    else .ok ()

/-- The `for step in plan.steps` loop of `enforce_plan_domain`. -/
def enforce_domain_steps (domain : String) : List PlanStep → Except PolicyError Unit
  | [] => .ok ()
  | step :: rest =>
    match enforce_domain_step domain step with
    | .error e => .error e
    | .ok _ => enforce_domain_steps domain rest

/-- Model of `PolicyEngine.enforce_plan_domain`. -/
def PolicyEngine.enforce_plan_domain (_pe : PolicyEngine) (plan : Plan) :
    Except PolicyError Unit :=
  enforce_domain_steps plan.domain plan.steps

/-- The per-step body of the `_enforce_plan_rules` loop. -/
def PolicyEngine.rules_step (pe : PolicyEngine) (ctx : Context) (step : PlanStep) :
    Except PolicyError Unit :=
  match pe.validate_step step with
  | .error e => .error e
  | .ok _ =>
    match (if step.tool == "system" then pe.validate_system_action step else .ok ()) with
    | .error e => .error e
    | .ok _ =>
      if step.inputs.uses_screenshot && !ctx.privacy.allow_screenshot then
        .error .screenshotNotPermitted
      else .ok ()

/-- The `for step in plan.steps` loop of `_enforce_plan_rules`. -/
def PolicyEngine.rules_steps (pe : PolicyEngine) (ctx : Context) :
    List PlanStep → Except PolicyError Unit
  | [] => .ok ()
  | step :: rest =>
    match pe.rules_step ctx step with
    | .error e => .error e
    | .ok _ => pe.rules_steps ctx rest

/-- Model of `PolicyEngine._enforce_plan_rules`: the OpenAI opt-in gate, then the
per-step loop. -/
def PolicyEngine.enforce_plan_rules (pe : PolicyEngine) (plan : Plan) (ctx : Context) :
    Except PolicyError Unit :=
  let requires_openai_opt_in :=
    plan.data_outbound.to_openai || plan.steps.any (fun step => step.tool == "openai")
  if requires_openai_opt_in && !ctx.privacy.allow_send_to_openai then
    .error .openaiNotPermitted
  else
    pe.rules_steps ctx plan.steps

/-- Model of `PolicyEngine.evaluate`: domain enforcement, rule enforcement, then the
signed all-steps Approval. -/
def PolicyEngine.evaluate (pe : PolicyEngine) (plan : Plan) (ctx : Context) :
    Except PolicyError Approval :=
  match pe.enforce_plan_domain plan with
  | .error e => .error e
  | .ok _ =>
    match pe.enforce_plan_rules plan ctx with
    | .error e => .error e
    | .ok _ =>
      let rc0 := plan.requires_confirmation || plan.risk == "medium" || plan.risk == "high"
      let requires_confirmation := if requires_gmail_confirmation plan then true else rc0
      let constraints : ApprovalConstraints :=
        { time_limit_sec := 30,
          no_screenshot_store := !ctx.privacy.allow_store_images,
          redact_before_openai := plan.data_outbound.redaction_required }
      let approved_steps := plan.steps.map (fun step => step.id)
      let signature := compute_policy_signature plan approved_steps constraints
        requires_confirmation pe.signature_secret
      .ok { approved := true, approved_steps := approved_steps,
            requires_confirmation := requires_confirmation,
            constraints := constraints, policy_signature := some signature }

/-- Model of `ExecutionError` from `schemas.py`, with one constructor per `raise` site
of `ExecutionEngine.execute`; `invalidArgs` stands for a rejection raised by
the plugin argument validation. -/
inductive ExecError where
  | notApproved
  | missingSignature
  | signatureInvalid
  | stepNotApproved (id : String)
  | productivityDomainSystemTool
  | systemPlanNotRouter
  | systemDomainNonSystemTool
  | noPlugin (tool : String)
  | invalidArgs (id : String)
deriving DecidableEq, Repr

/-- The executor checks performed before any plugin runs (approval presence,
approval flag, signature presence and match, per-step approval membership). -/
def ExecError.isApprovalOrSignatureCheck : ExecError → Bool
  | .notApproved => true
  | .missingSignature => true
  | .signatureInvalid => true
  | .stepNotApproved _ => true
  | _ => false

/-- The external `BasePlugin` contract as used by `ExecutionEngine.execute`:
argument validation plus the side-effecting entry point (named `run` here;
`execute` in the source). -/
structure Plugin where
  validate_args : String → List (String × Val) → Bool
  run : String → List (String × Val) → Approval → Val

/-- Model of `ExecutionEngine` state: plugin registry and signature secret. -/
structure ExecutionEngine where
  plugins : List (String × Plugin)
  signature_secret : String

/-- The `for step in plan.steps` loop of `ExecutionEngine.execute`, with the
result map as an accumulator. -/
def ExecutionEngine.execRemaining (ee : ExecutionEngine) (plan : Plan)
    (approval : Approval) :
    List PlanStep → List (String × Val) → Except ExecError (List (String × Val))
  | [], results => .ok results
  | step :: rest, results =>
    if !approval.approved_steps.contains step.id then
      .error (.stepNotApproved step.id)
    else if plan.domain == "productivity" && step.tool == "system" then
      .error .productivityDomainSystemTool
    else if plan.domain == "system" && plan.origin != "router" then
      .error .systemPlanNotRouter
    else if plan.domain == "system" && step.tool != "system" then
      .error .systemDomainNonSystemTool
    else
      match ee.plugins.find? (fun kv => kv.1 == step.tool) with
      | none => .error (.noPlugin step.tool)
      | some kv =>
        if !kv.2.validate_args step.action step.args then
          .error (.invalidArgs step.id)
        else
          ee.execRemaining plan approval rest
            (results ++ [(step.id, kv.2.run step.action step.args approval)])

/-- Model of `ExecutionEngine.execute`: approval and signature checks, then the
per-step loop. -/
def ExecutionEngine.execute (ee : ExecutionEngine) (plan : Plan)
    (approval : Approval) : Except ExecError (List (String × Val)) :=
  if !approval.approved then .error .notApproved
  else
    match approval.policy_signature with
    | none => .error .missingSignature
    | some signature =>
      let expected_signature := compute_policy_signature plan approval.approved_steps
        approval.constraints approval.requires_confirmation ee.signature_secret
      if signature ≠ expected_signature then .error .signatureInvalid
      else ee.execRemaining plan approval plan.steps []

/-- Model of `is_outbound_llm_provider` from `config/runtime.py`. -/
def is_outbound_llm_provider (provider : String) : Bool :=
  ["openai", "gemini", "groq"].contains (strLower provider)

/-- Model of `_mark_openai_outbound` from `sanitization.py`. -/
def mark_openai_outbound (plan : Plan) (provider : String) : Plan :=
  let is_outbound := is_outbound_llm_provider provider
  let to_openai := is_outbound && plan.steps.any (fun step => step.tool == "openai")
  let redaction_required := is_outbound && plan.data_outbound.redaction_required
  { plan with data_outbound :=
      { plan.data_outbound with to_openai := to_openai,
                                redaction_required := redaction_required } }

/-- Model of `_redact_value` from `sanitization.py`: non-strings pass through, the
literal key `to` becomes the placeholder address, every other string becomes
the redaction marker. -/
def redact_value (key : String) (value : Val) : Val :=
  match value with
  | .str _ => if key == "to" then .str "redacted@example.com" else .str "[REDACTED]"
  | other => other

/-- Model of `_redact_openai_steps` from `sanitization.py`. -/
def redact_openai_steps (plan : Plan) : Plan :=
  if !plan.data_outbound.redaction_required then plan
  else
    { plan with steps := plan.steps.map (fun step =>
        if step.tool != "openai" then step
        else { step with args := step.args.map (fun kv => (kv.1, redact_value kv.1 kv.2)) }) }

/-- Model of `sanitize_plan` from `sanitization.py`, with the configured provider as an
explicit argument (the source reads it from the environment). -/
def sanitize_plan (provider : String) (plan : Plan) : Plan :=
  redact_openai_steps (mark_openai_outbound plan provider)

/-- Spec wording of the per-argument redaction rule (claim C5): every
string-valued argument becomes the fixed marker, except the literal key
`to`, which becomes the fixed placeholder address; non-string values are
unchanged. -/
def redactValueSpec (key : String) (value : Val) : Val :=
  match value with
  | .str _ => if key == "to" then .str "redacted@example.com" else .str "[REDACTED]"
  | other => other

/-- Spec wording of the per-step redaction rule (claim C5): steps of the
outbound tool get their arguments redacted by `redactValueSpec`; every other
step is returned unchanged, identical to the input. -/
def redactStepSpec (step : PlanStep) : PlanStep :=
  if step.tool == "openai" then
    { step with args := step.args.map (fun kv => (kv.1, redactValueSpec kv.1 kv.2)) }
  else step

/-- Model of `ParsedIntent` from `confidence.py`. -/
structure ParsedIntent where
  intent : String
  provider : Option String
  query : Option String
  artist : Option String
deriving DecidableEq, Repr

/-- Model of `IntentSpec` from `confidence.py`. -/
structure IntentSpec where
  intent : String
  required_fields : List String
  optional_fields : List String
  provider : Option String
  query_field : Option String
  artist_field : Option String
deriving DecidableEq, Repr

/-- Model of `ConfidenceEvaluation` from `confidence.py`. -/
structure ConfidenceEvaluation where
  intent : String
  parse : ℚ
  retrieval : ℚ
  final : ℚ
  decision : String
  reasons : List String
  tool : Option String
  action : Option String
  missing_fields : List String

/-- A retrieval callback (`IntentRetrieval`); a thrown exception is modelled
by the `Except.error` branch. -/
def IntentRetrieval : Type := ParsedIntent → Except String ℚ

/-- Model of `ConfidenceEngine` state: the registered retrieval providers. -/
structure ConfidenceEngine where
  retrieval_providers : List (String × IntentRetrieval)

/-- The `_INTENT_SPECS` table from `confidence.py`. -/
def intentSpecs : List ((String × String) × IntentSpec) :=
  [(("spotify", "play"),
    ⟨"media.play", ["track"], ["artist"], some "spotify", some "track", some "artist"⟩),
   (("local", "media_play"),
    ⟨"media.play", ["query"], ["artist"], none, some "query", some "artist"⟩),
   (("local", "media_stop"), ⟨"media.stop", [], ["provider"], none, none, none⟩),
   (("system", "status"), ⟨"system.status", [], ["focus"], none, none, none⟩),
   (("system", "net_snapshot"), ⟨"system.net_snapshot", [], ["detail"], none, none, none⟩),
   (("system", "net_connections"), ⟨"system.net_connections", [], [], none, none, none⟩),
   (("system", "exposure_snapshot"), ⟨"system.exposure_snapshot", [], [], none, none, none⟩),
   (("system", "bt_status"), ⟨"system.bt_status", [], [], none, none, none⟩),
   (("system", "local_devices"), ⟨"system.local_devices", [], [], none, none, none⟩),
   (("system", "access_overview"), ⟨"system.access_overview", [], [], none, none, none⟩),
   (("system", "open_app"), ⟨"system.open_app", ["app"], ["app"], none, none, none⟩),
   (("local", "open_app"), ⟨"local.open_app", ["app"], ["app"], none, none, none⟩),
   (("local", "open_youtube"), ⟨"local.open_youtube", [], [], none, none, none⟩),
   (("gmail", "send"),
    ⟨"communication.send_email", ["to", "subject", "body"], ["subject"], some "gmail", none, none⟩),
   (("docs", "create"),
    ⟨"docs.create", ["title", "content"], ["title"], some "docs", none, none⟩),
   (("openai", "draft"),
    ⟨"assistant.generate_text", ["prompt"], [], some "openai", some "prompt", none⟩),
   (("openai", "generate_text"),
    ⟨"assistant.generate_text", ["prompt"], [], some "openai", some "prompt", none⟩),
   (("openai", "draft_email"),
    ⟨"assistant.draft_email", ["to", "subject", "body"], [], some "openai", none, none⟩),
   (("openai", "summarize"),
    ⟨"assistant.summarize", ["text"], [], some "openai", some "text", none⟩),
   (("openai", "summarize_text"),
    ⟨"assistant.summarize", ["text"], [], some "openai", some "text", none⟩),
   (("openai", "outline"),
    ⟨"assistant.outline", ["topic"], [], some "openai", some "topic", none⟩)]

/-- Model of `_INTENT_SPECS.get((tool, action))`. -/
def intentSpecFor (tool action : String) : Option IntentSpec :=
  match intentSpecs.find? (fun kv => kv.1.1 == tool && kv.1.2 == action) with
  | some kv => some kv.2
  | none => none

/-- Model of `_decision_for` from `confidence.py`. -/
def decision_for (final_conf : ℚ) : String :=
  if final_conf ≥ 0.80 then "execute"
  else if final_conf ≥ 0.55 then "soft_confirm"
  else if final_conf ≥ 0.35 then "clarify"
  else "block"

/-- Model of `_clamp` from `confidence.py` (at its default bounds 0 and 1). -/
def clamp (value : ℚ) : ℚ := max 0 (min 1 value)

/-- Model of `_is_field_present` from `confidence.py`: `None` and absent are missing,
strings count when non-blank, every other value counts. -/
def is_field_present (value : Option Val) : Bool :=
  match value with
  | none => false
  | some .vnone => false
  | some (.str s) => !(strStrip s == "")
  | some _ => true

/-- Model of `_has_meaningful_input` from `confidence.py`. -/
def has_meaningful_input (args : List (String × Val)) : Bool :=
  args.any (fun kv => is_field_present (some kv.2))

/-- Model of `_extract_text_field` from `confidence.py`. -/
def extract_text_field (args : List (String × Val)) (field : Option String) :
    Option String :=
  match field with
  | none => none
  | some f =>
    if f == "" then none
    else
      match argsGet args f with
      | some (.str s) => if !(strStrip s == "") then some (strStrip s) else none
      | _ => none

/-- Model of `ConfidenceEngine._build_parsed_intent` (the Python `or`-chain on the
provider treats an empty string as falsy). -/
def build_parsed_intent (step : PlanStep) (spec : Option IntentSpec) : ParsedIntent :=
  match spec with
  | none => ⟨"unknown", none, none, none⟩
  | some sp =>
    let provider := match sp.provider with
      | some p => if p == "" then step.tool else p
      | none => step.tool
    ⟨sp.intent, some provider, extract_text_field step.args sp.query_field,
      extract_text_field step.args sp.artist_field⟩

/-- Model of `ConfidenceEngine._check_required_fields`: the missing required fields and
whether all of them are present. -/
def check_required_fields (step : PlanStep) (spec : Option IntentSpec) :
    List String × Bool :=
  match spec with
  | none => ([], false)
  | some sp =>
    if sp.required_fields.isEmpty then ([], true)
    else
      let missing := sp.required_fields.filter
        (fun f => !is_field_present (argsGet step.args f))
      (missing, missing.isEmpty)

/-- Model of `ConfidenceEngine._score_parse_conf`: the additive parse score with its
0.34 cap when required fields are missing, plus the reason log. -/
def score_parse_conf (spec : Option IntentSpec) (args : List (String × Val))
    (required_present : Bool) (missing_fields : List String) : ℚ × List String :=
  let s1 : ℚ := if spec.isSome then 0.40 else 0
  let r1 : List String := match spec with
    | some sp => ["intent matched " ++ sp.intent]
    | none => ["unknown intent grammar"]
  let s2 := if required_present then s1 + 0.30 else s1
  let r2 := if required_present then r1 ++ ["required fields present"]
    else r1 ++ ["missing required fields: " ++ String.intercalate ", " missing_fields,
                "missing required fields; clarification required"]
  let s3 := if spec.isSome && required_present then s2 + 0.20 else s2
  let r3 := if spec.isSome && required_present then r2 ++ ["provider specified or defaulted"]
    else if spec.isSome then r2 ++ ["provider deferred until required fields present"]
    else r2 ++ ["provider missing"]
  let optionalHit := match spec with
    | some sp =>
      if !sp.optional_fields.isEmpty && required_present then
        (if sp.optional_fields.any (fun f => is_field_present (argsGet args f))
         then some true else some false)
      else none
    | none => none
  let s4 := if optionalHit = some true then s3 + 0.10 else s3
  let r4 := match optionalHit with
    | some true => r3 ++ ["optional clarity present"]
    | some false => r3 ++ ["optional clarity missing"]
    | none => r3
  let s5 := if !required_present then min s4 0.34 else s4
  (clamp s5, r4)

/-- Model of `ConfidenceEngine._score_retrieval_conf`: the fallback chain, the clamp of
the registered callback, and the degrade-to-zero on a thrown exception. -/
def ConfidenceEngine.score_retrieval_conf (ce : ConfidenceEngine) (parse_conf : ℚ)
    (parsed_intent : ParsedIntent) (spec : Option IntentSpec)
    (required_present : Bool) (missing_fields : List String) : ℚ × List String :=
  if !required_present && !missing_fields.isEmpty then
    (parse_conf, ["missing required fields; retrieval skipped"])
  else if parse_conf < 0.4 then
    (parse_conf, ["parse confidence below retrieval threshold"])
  else
    match spec with
    | none => (parse_conf, ["retrieval skipped for unknown intent"])
    | some sp =>
      match ce.retrieval_providers.find? (fun kv => kv.1 == sp.intent) with
      | none => (parse_conf, ["retrieval skipped (not configured)"])
      | some kv =>
        match kv.2 parsed_intent with
        | .error exc => (0, ["retrieval failed: " ++ exc])
        | .ok retrieval_conf => (clamp retrieval_conf, ["retrieval completed"])

/-- Model of `ConfidenceEngine.evaluate_step`: spec lookup, required-field check,
parse and retrieval scoring, the weighted final score, the threshold decision
and the forced clarify-or-block override for missing required fields. -/
def ConfidenceEngine.evaluate_step (ce : ConfidenceEngine) (step : PlanStep) :
    ConfidenceEvaluation :=
  let spec := intentSpecFor step.tool step.action
  let parsed_intent := build_parsed_intent step spec
  let checked := check_required_fields step spec
  let missing_fields := checked.1
  let required_present := checked.2
  let parsed := score_parse_conf spec step.args required_present missing_fields
  let retrieved := ce.score_retrieval_conf parsed.1 parsed_intent spec
    required_present missing_fields
  let final_conf := clamp (0.6 * parsed.1 + 0.4 * retrieved.1)
  let decision0 := decision_for final_conf
  let decision :=
    if spec.isSome && !missing_fields.isEmpty && !required_present then
      (if has_meaningful_input step.args then "clarify" else "block")
    else decision0
  let reasons0 := parsed.2 ++ retrieved.2
  let reasons := if reasons0.isEmpty then ["confidence computed"] else reasons0
  { intent := parsed_intent.intent, parse := parsed.1, retrieval := retrieved.1,
    final := final_conf, decision := decision, reasons := reasons,
    tool := some step.tool, action := some step.action,
    missing_fields := missing_fields }

/-- A Python exception value fed to `record_failure`. -/
structure PyException where
  cls : String
  msg : String
deriving DecidableEq, Repr

/-- Model of `_sanitize_error` from `llm_health.py`. -/
def sanitize_error (error : PyException) : String :=
  let message := (error.msg.trim).replace "\n" " "
  let message := if message.length > 240 then message.take 237 ++ "..." else message
  if message == "" then error.cls else message

/-- Model of `LLMHealthCircuitBreaker` state; `opened_at` carries the monotonic time of
the last opening. -/
structure LLMHealthCircuitBreaker where
  failure_threshold : Nat
  cooldown_seconds : ℚ
  request_timeout : Nat
  state : String
  fail_count : Nat
  last_error : Option String
  opened_at : Option ℚ
deriving DecidableEq, Repr

/-- A breaker as built by `LLMHealthCircuitBreaker.__init__` with the given
threshold and cooldown. -/
def mkBreaker (failure_threshold : Nat) (cooldown_seconds : ℚ) :
    LLMHealthCircuitBreaker :=
  { failure_threshold := failure_threshold, cooldown_seconds := cooldown_seconds,
    request_timeout := 4, state := "CLOSED", fail_count := 0,
    last_error := none, opened_at := none }

/-- Model of `allow_request`: the lazy OPEN to HALF_OPEN transition once the cooldown
has elapsed (current monotonic time passed explicitly). -/
def LLMHealthCircuitBreaker.allow_request (b : LLMHealthCircuitBreaker) (now : ℚ) :
    Bool × LLMHealthCircuitBreaker :=
  if b.state == "OPEN" then
    match b.opened_at with
    | none => (false, b)
    | some t =>
      if t + b.cooldown_seconds ≤ now then (true, { b with state := "HALF_OPEN" })
      else (false, b)
  else (true, b)

/-- Model of `record_success`: always reset to CLOSED with a zeroed failure count. -/
def LLMHealthCircuitBreaker.record_success (b : LLMHealthCircuitBreaker) :
    LLMHealthCircuitBreaker :=
  { b with state := "CLOSED", fail_count := 0, last_error := none, opened_at := none }

/-- Model of `_open_breaker`. -/
def LLMHealthCircuitBreaker.open_breaker (b : LLMHealthCircuitBreaker) (now : ℚ) :
    LLMHealthCircuitBreaker :=
  { b with state := "OPEN", fail_count := max b.fail_count b.failure_threshold,
           opened_at := some now }

/-- Model of `record_failure`: immediate reopen from HALF_OPEN, otherwise count up and
open at the threshold. -/
def LLMHealthCircuitBreaker.record_failure (b : LLMHealthCircuitBreaker)
    (error : PyException) (now : ℚ) : LLMHealthCircuitBreaker :=
  let b := { b with last_error := some (sanitize_error error) }
  if b.state == "HALF_OPEN" then b.open_breaker now
  else
    let b := { b with fail_count := b.fail_count + 1 }
    if b.fail_count ≥ b.failure_threshold then b.open_breaker now else b

/-- Model of `Except.isOk` (used to phrase rejection without binders). -/
def exceptIsOk {ε α : Type} : Except ε α → Bool
  | .ok _ => true
  | .error _ => false

/-! ### Concrete fixtures used by witnesses and counterexamples -/

/-- A router-built system step, as in the end-to-end scenario of the spec. -/
def step0 : PlanStep :=
  ⟨"step-1", "system", "open_app", [("app", .str "notes")], ⟨false, true⟩, ⟨true, false⟩⟩

/-- A valid system-domain router plan around `step0`. -/
def P0 : Plan :=
  ⟨"open notes", "system", [step0], false, ⟨false, ["text"], true⟩, "low", "", "router"⟩

/-- A default prod context with all privacy switches off. -/
def ctx0 : Context := ⟨"s", 0, "prod", none, false, ⟨false, false, false⟩⟩

/-- The approval issued for `P0` (extracted from the evaluation result). -/
def A0 : Approval :=
  (defaultPolicyEngine.evaluate P0 ctx0).toOption.getD ⟨false, [], false, ⟨30, true, true⟩, none⟩

/-- An execution engine with no plugins sharing the default secret. -/
def EE0 : ExecutionEngine := ⟨[], defaultSecret⟩

/-- Model of `P0` with its goal mutated after approval issuance. -/
def P0mut : Plan := { P0 with goal := "open notes tampered" }

/-- Model of `P0` claimed to come from the free-form planner instead of the router. -/
def P2b : Plan := { P0 with origin := "planner" }

/-- The approval issued for `P2b`. -/
def A2b : Approval :=
  (defaultPolicyEngine.evaluate P2b ctx0).toOption.getD ⟨false, [], false, ⟨30, true, true⟩, none⟩

/-- A productivity plan that contains a system-tool step. -/
def P2a : Plan :=
  ⟨"mixed up", "productivity", [step0], false, ⟨false, ["text"], true⟩, "low", "", "planner"⟩

/-- A policy engine whose denylist also contains the allowlisted
`spotify.play`. -/
def pe3 : PolicyEngine := ⟨defaultAllowlist, ["spotify.play"], defaultSecret⟩

/-- A spotify play step (allowlisted by default). -/
def step3 : PlanStep :=
  ⟨"s1", "spotify", "play", [("track", .str "hey jude")], ⟨false, true⟩, ⟨true, false⟩⟩

/-- A productivity plan around `step3`. -/
def P3 : Plan :=
  ⟨"play", "productivity", [step3], false, ⟨false, ["text"], true⟩, "low", "", "planner"⟩

/-- An outbound-tool step with a secret prompt, a recipient and a non-string
argument. -/
def stepS : PlanStep :=
  ⟨"s1", "openai", "draft", [("prompt", .str "secret"), ("to", .str "u@x.com"), ("n", .int 3)],
    ⟨false, true⟩, ⟨true, false⟩⟩

/-- A non-outbound-tool step. -/
def stepT : PlanStep := ⟨"s2", "gmail", "send", [("body", .str "hi")], ⟨false, true⟩, ⟨true, false⟩⟩

/-- A redaction-required plan mixing an outbound and a non-outbound step. -/
def P5 : Plan :=
  ⟨"draft", "productivity", [stepS, stepT], false, ⟨false, ["text"], true⟩, "low", "", "planner"⟩

/-- A gmail send step missing the required subject and body. -/
def step6 : PlanStep :=
  ⟨"s1", "gmail", "send", [("to", .str "x@y.com")], ⟨false, true⟩, ⟨true, false⟩⟩

/-- A gmail send step with no arguments at all. -/
def step6b : PlanStep := ⟨"s1", "gmail", "send", [], ⟨false, true⟩, ⟨true, false⟩⟩

/-- The registered intent spec for `(gmail, send)`. -/
def spGmail : IntentSpec :=
  ⟨"communication.send_email", ["to", "subject", "body"], ["subject"], some "gmail", none, none⟩

/-- The registered intent spec for `(spotify, play)`. -/
def spSpotify : IntentSpec :=
  ⟨"media.play", ["track"], ["artist"], some "spotify", some "track", some "artist"⟩

/-- A productivity plan whose only step is the sensitive gmail send. -/
def P8 : Plan :=
  ⟨"send mail", "productivity", [step6], false, ⟨false, ["text"], true⟩, "low", "", "planner"⟩

/-- The approval issued for `P8`. -/
def A8 : Approval :=
  (defaultPolicyEngine.evaluate P8 ctx0).toOption.getD ⟨false, [], false, ⟨30, true, true⟩, none⟩

/-- A concrete exception fed to the breaker. -/
def err0 : PyException := ⟨"RuntimeError", "boom"⟩

/-- A retrieval callback that penalizes the presence of an artist. -/
def g9 : IntentRetrieval := fun pi => if pi.artist.isSome then .ok 0 else .ok 1

/-- A confidence engine registering `g9` for `media.play`. -/
def ce9 : ConfidenceEngine := ⟨[("media.play", g9)]⟩

/-- A confidence engine with no retrieval providers. -/
def ce0 : ConfidenceEngine := ⟨[]⟩

/-- A spotify play step with only the required track. -/
def step9a : PlanStep := step3

/-- Model of `step9a` with the optional artist added. -/
def step9b : PlanStep :=
  ⟨"s1", "spotify", "play", [("track", .str "hey jude"), ("artist", .str "beatles")],
    ⟨false, true⟩, ⟨true, false⟩⟩

/-- A retrieval callback always returning 0. -/
def g9low : IntentRetrieval := fun _ => .ok 0

/-- A retrieval callback always returning 1. -/
def g9high : IntentRetrieval := fun _ => .ok 1

/-- A confidence engine registering `g9low` for `media.play`. -/
def ce9low : ConfidenceEngine := ⟨[("media.play", g9low)]⟩

/-- A confidence engine registering `g9high` for `media.play`. -/
def ce9high : ConfidenceEngine := ⟨[("media.play", g9high)]⟩

/-! ### Helper lemmas -/

theorem contains_of_mem {l : List String} {a : String} (h : a ∈ l) :
    l.contains a = true := by
  simpa using h

/-- Inversion of the success path of `PolicyEngine.evaluate`: the shape of
every issued Approval. -/
theorem evaluate_ok_spec {pe : PolicyEngine} {plan : Plan} {ctx : Context}
    {a : Approval} (h : pe.evaluate plan ctx = .ok a) :
    a.approved = true ∧
    a.approved_steps = plan.steps.map (fun step => step.id) ∧
    a.requires_confirmation =
      ((plan.requires_confirmation || plan.risk == "medium" || plan.risk == "high")
        || requires_gmail_confirmation plan) ∧
    a.constraints = ⟨30, !ctx.privacy.allow_store_images,
      plan.data_outbound.redaction_required⟩ ∧
    a.policy_signature = some (compute_policy_signature plan a.approved_steps
      a.constraints a.requires_confirmation pe.signature_secret) := by
  unfold PolicyEngine.evaluate at h
  cases hd : pe.enforce_plan_domain plan with
  | error e => rw [hd] at h; cases h
  | ok u =>
    rw [hd] at h
    cases hr : pe.enforce_plan_rules plan ctx with
    | error e => rw [hr] at h; cases h
    | ok u2 =>
      rw [hr] at h
      injection h with h
      subst h
      refine ⟨rfl, rfl, ?_, rfl, rfl⟩
      cases hg : requires_gmail_confirmation plan <;> simp [hg]

/-- Both enforcement phases succeed on the success path of `evaluate`. -/
theorem evaluate_ok_enforce {pe : PolicyEngine} {plan : Plan} {ctx : Context}
    {a : Approval} (h : pe.evaluate plan ctx = .ok a) :
    pe.enforce_plan_domain plan = .ok () ∧ pe.enforce_plan_rules plan ctx = .ok () := by
  unfold PolicyEngine.evaluate at h
  cases hd : pe.enforce_plan_domain plan with
  | error e => rw [hd] at h; cases h
  | ok u =>
    rw [hd] at h
    cases hr : pe.enforce_plan_rules plan ctx with
    | error e => rw [hr] at h; cases h
    | ok u2 => exact ⟨rfl, rfl⟩

/-- If some step of the list fails the domain check, the domain loop fails. -/
theorem enforce_domain_steps_error {domain : String} {steps : List PlanStep}
    {s : PlanStep} (hs : s ∈ steps) {e : PolicyError}
    (hstep : enforce_domain_step domain s = .error e) :
    ∀ u, enforce_domain_steps domain steps ≠ .ok u := by
  induction steps with
  | nil => cases hs
  | cons t rest ih =>
    intro u h
    unfold enforce_domain_steps at h
    cases ht : enforce_domain_step domain t with
    | error e2 => rw [ht] at h; cases h
    | ok v =>
      rw [ht] at h
      rcases List.mem_cons.mp hs with rfl | hmem
      · rw [hstep] at ht; cases ht
      · exact ih hmem u h

/-- If some step of the list fails the per-step rule body, the rule loop
fails. -/
theorem rules_steps_error {pe : PolicyEngine} {ctx : Context}
    {steps : List PlanStep} {s : PlanStep} (hs : s ∈ steps) {e : PolicyError}
    (hstep : pe.rules_step ctx s = .error e) :
    ∀ u, pe.rules_steps ctx steps ≠ .ok u := by
  induction steps with
  | nil => cases hs
  | cons t rest ih =>
    intro u h
    unfold PolicyEngine.rules_steps at h
    cases ht : pe.rules_step ctx t with
    | error e2 => rw [ht] at h; cases h
    | ok v =>
      rw [ht] at h
      rcases List.mem_cons.mp hs with rfl | hmem
      · rw [hstep] at ht; cases ht
      · exact ih hmem u h

/-- A failing `_validate_step` makes the rule body fail. -/
theorem rules_step_error_of_validate {pe : PolicyEngine} {ctx : Context}
    {s : PlanStep} {e : PolicyError} (h : pe.validate_step s = .error e) :
    pe.rules_step ctx s = .error e := by
  unfold PolicyEngine.rules_step
  rw [h]

/-- When every step id of the list is approved, the executor loop never fails
with an approval- or signature-level error. -/
theorem execRemaining_not_check {ee : ExecutionEngine} {plan : Plan}
    {approval : Approval} :
    ∀ (steps : List PlanStep) (acc : List (String × Val)),
    (∀ s ∈ steps, s.id ∈ approval.approved_steps) →
    ∀ {e : ExecError}, ee.execRemaining plan approval steps acc = .error e →
    e.isApprovalOrSignatureCheck = false := by
  intro steps
  induction steps with
  | nil =>
    intro acc hcov e h
    simp [ExecutionEngine.execRemaining] at h
  | cons s rest ih =>
    intro acc hcov e h
    have hc : approval.approved_steps.contains s.id = true :=
      contains_of_mem (hcov s (List.mem_cons_self s rest))
    rw [ExecutionEngine.execRemaining, hc] at h
    simp only [Bool.not_true, Bool.false_eq_true, if_false] at h
    split at h
    · injection h with h; subst h; rfl
    · split at h
      · injection h with h; subst h; rfl
      · split at h
        · injection h with h; subst h; rfl
        · split at h
          · injection h with h; subst h; rfl
          · split at h
            · injection h with h; subst h; rfl
            · exact ih _ (fun t ht => hcov t (List.mem_cons_of_mem s ht)) h

/-- When evaluation issued the approval and the execution engine shares the
secret, `execute` passes all approval and signature checks and reduces to the
per-step loop. -/
theorem execute_eq_loop_of_evaluate {pe : PolicyEngine} {ee : ExecutionEngine}
    {plan : Plan} {ctx : Context} {a : Approval}
    (hsec : ee.signature_secret = pe.signature_secret)
    (heval : pe.evaluate plan ctx = .ok a) :
    ee.execute plan a = ee.execRemaining plan a plan.steps [] := by
  obtain ⟨ha, hsteps, hrc, hcon, hsig⟩ := evaluate_ok_spec heval
  rw [ExecutionEngine.execute, ha, hsig, hsec]
  simp

/-- Every step id of the reviewed plan is covered by the issued approval. -/
theorem evaluate_ok_covers {pe : PolicyEngine} {plan : Plan} {ctx : Context}
    {a : Approval} (heval : pe.evaluate plan ctx = .ok a) :
    ∀ s ∈ plan.steps, s.id ∈ a.approved_steps := by
  obtain ⟨_, hsteps, _, _, _⟩ := evaluate_ok_spec heval
  intro s hs
  rw [hsteps]
  exact List.mem_map_of_mem (fun step => step.id) hs

/-! ### Claims -/

/-- C1: for an ExecutionEngine and PolicyEngine sharing the same signature
secret, an Approval issued by `evaluate` for a Plan passes the approval,
signature and per-step approval-membership checks of `execute` (any error it
raises is some other per-step violation); and for any submitted plan or
approval whose bound values (plan goal, domain, risk, steps, step args, or
approval approved_steps, constraints, requires_confirmation) differ from the
signed ones, carrying the original signature, `execute` fails with the
signature-invalid ExecutionError before the per-step loop touches any
plugin. -/
theorem c1_signature_binding (pe : PolicyEngine) (ee : ExecutionEngine)
    (plan : Plan) (ctx : Context) (a : Approval)
    (hsec : ee.signature_secret = pe.signature_secret)
    (heval : pe.evaluate plan ctx = .ok a) :
    (∀ e : ExecError, ee.execute plan a = .error e →
      e.isApprovalOrSignatureCheck = false) ∧
    (∀ (plan2 : Plan) (a2 : Approval), a2.approved = true →
      a2.policy_signature = a.policy_signature →
      compute_policy_signature plan2 a2.approved_steps a2.constraints
          a2.requires_confirmation ee.signature_secret ≠
        compute_policy_signature plan a.approved_steps a.constraints
          a.requires_confirmation ee.signature_secret →
      ee.execute plan2 a2 = .error .signatureInvalid) := by
  constructor
  · intro e h
    rw [execute_eq_loop_of_evaluate hsec heval] at h
    exact execRemaining_not_check plan.steps [] (evaluate_ok_covers heval) h
  · intro plan2 a2 ha2 hsig2 hdiff
    obtain ⟨_, _, _, _, hsig⟩ := evaluate_ok_spec heval
    rw [← hsec] at hsig
    rw [ExecutionEngine.execute, ha2, hsig2, hsig]
    simp only [Bool.not_true, Bool.false_eq_true, if_false]
    rw [if_pos]
    exact fun hh => hdiff hh.symm

/-- C1 witness: the default engines on the concrete router plan `P0`; the
issued approval verifies, and the same approval against the goal-mutated
plan `P0mut` is rejected as signature-invalid. -/
theorem c1_signature_binding_witness :
    defaultPolicyEngine.evaluate P0 ctx0 = .ok A0 ∧
    EE0.execute P0mut A0 = .error .signatureInvalid :=
  ⟨rfl, (c1_signature_binding defaultPolicyEngine EE0 P0 ctx0 A0 rfl rfl).2
    P0mut A0 rfl rfl (by decide)⟩

/-- C2: domain isolation.  A productivity-domain plan containing a step whose
tool maps to the system domain is rejected by the Policy Engine; and a
system-domain plan whose origin is not the router is rejected by the
Execution Engine even with a signature-valid approval issued for it. -/
theorem c2_domain_isolation :
    (∀ (pe : PolicyEngine) (plan : Plan) (ctx : Context) (s : PlanStep),
      plan.domain = "productivity" → s ∈ plan.steps →
      tool_domains s.tool = some "system" →
      exceptIsOk (pe.evaluate plan ctx) = false) ∧
    (∀ (pe : PolicyEngine) (ee : ExecutionEngine) (plan : Plan) (ctx : Context)
      (a : Approval),
      ee.signature_secret = pe.signature_secret → plan.valid = true →
      plan.domain = "system" → plan.origin ≠ "router" →
      pe.evaluate plan ctx = .ok a →
      ee.execute plan a = .error .systemPlanNotRouter) := by
  constructor
  · intro pe plan ctx s hdom hs hsys
    have hstep : enforce_domain_step plan.domain s =
        .error .systemToolInProductivityPlan := by
      rw [hdom]
      unfold enforce_domain_step
      rw [hsys]
      rfl
    cases hev : pe.evaluate plan ctx with
    | error e => rfl
    | ok a =>
      exfalso
      have henf := (evaluate_ok_enforce hev).1
      exact enforce_domain_steps_error hs hstep () henf
  · intro pe ee plan ctx a hsec hvalid hdom horigin heval
    rw [execute_eq_loop_of_evaluate hsec heval]
    cases hsteps : plan.steps with
    | nil =>
      exfalso
      unfold Plan.valid at hvalid
      rw [hsteps] at hvalid
      simp at hvalid
    | cons s rest =>
      have hc : a.approved_steps.contains s.id = true :=
        contains_of_mem (evaluate_ok_covers heval s
          (by rw [hsteps]; exact List.mem_cons_self s rest))
      rw [ExecutionEngine.execRemaining, hc]
      simp [hdom, bne_iff_ne, horigin]

/-- C2 witness: the default engine rejects the productivity plan `P2a` that
contains the system step `step0`, and the executor rejects the system plan
`P2b` with planner origin despite its valid approval `A2b`. -/
theorem c2_domain_isolation_witness :
    exceptIsOk (defaultPolicyEngine.evaluate P2a ctx0) = false ∧
    EE0.execute P2b A2b = .error .systemPlanNotRouter :=
  ⟨c2_domain_isolation.1 defaultPolicyEngine P2a ctx0 step0 rfl (by simp [P2a]) rfl,
   c2_domain_isolation.2 defaultPolicyEngine EE0 P2b ctx0 A2b rfl (by decide) rfl
     (by decide) rfl⟩

/-- C3: denylist precedence.  A step whose fully-qualified tool.action or bare
action is denylisted makes `_validate_step` fail with the denylist error even
when the pair is allowlisted (the denylist check runs first), and a plan
containing such a step is always rejected by `evaluate`. -/
theorem c3_denylist_precedence :
    (∀ (pe : PolicyEngine) (step : PlanStep),
      (pe.denylist.contains (step.tool ++ "." ++ step.action) ||
        pe.denylist.contains step.action) = true →
      pe.validate_step step =
        .error (.denylisted (step.tool ++ "." ++ step.action))) ∧
    (∀ (pe : PolicyEngine) (plan : Plan) (ctx : Context) (s : PlanStep),
      s ∈ plan.steps →
      (pe.denylist.contains (s.tool ++ "." ++ s.action) ||
        pe.denylist.contains s.action) = true →
      exceptIsOk (pe.evaluate plan ctx) = false) := by
  have h1 : ∀ (pe : PolicyEngine) (step : PlanStep),
      (pe.denylist.contains (step.tool ++ "." ++ step.action) ||
        pe.denylist.contains step.action) = true →
      pe.validate_step step =
        .error (.denylisted (step.tool ++ "." ++ step.action)) := by
    intro pe step h
    simp only [PolicyEngine.validate_step]
    rw [h]
    rfl
  refine ⟨h1, ?_⟩
  intro pe plan ctx s hs hdeny
  cases hev : pe.evaluate plan ctx with
  | error e => rfl
  | ok a =>
    exfalso
    have hr := (evaluate_ok_enforce hev).2
    simp only [PolicyEngine.enforce_plan_rules] at hr
    split at hr
    · cases hr
    · exact rules_steps_error hs (rules_step_error_of_validate (h1 pe s hdeny)) () hr

/-- C3 witness: with `spotify.play` both allowlisted and denylisted, the step
check reports the denylist error and the plan `P3` is rejected. -/
theorem c3_denylist_precedence_witness :
    pe3.validate_step step3 = .error (.denylisted ("spotify" ++ "." ++ "play")) ∧
    exceptIsOk (pe3.evaluate P3 ctx0) = false :=
  ⟨c3_denylist_precedence.1 pe3 step3 (by decide),
   c3_denylist_precedence.2 pe3 P3 ctx0 step3 (by simp [P3]) (by decide)⟩

/-- C4: all-or-nothing approval.  Every Approval issued by `evaluate` is
approved and lists exactly the ids of every plan step, in plan order, so no
strict subset is ever approved. -/
theorem c4_all_or_nothing (pe : PolicyEngine) (plan : Plan) (ctx : Context)
    (a : Approval) (heval : pe.evaluate plan ctx = .ok a) :
    a.approved = true ∧
    a.approved_steps = plan.steps.map (fun step => step.id) ∧
    ∀ s ∈ plan.steps, s.id ∈ a.approved_steps := by
  obtain ⟨ha, hsteps, _, _, _⟩ := evaluate_ok_spec heval
  exact ⟨ha, hsteps, evaluate_ok_covers heval⟩

/-- C4 witness: the approval for `P0` is approved and covers its single step
id. -/
theorem c4_all_or_nothing_witness :
    defaultPolicyEngine.evaluate P0 ctx0 = .ok A0 ∧
    A0.approved = true ∧ A0.approved_steps = P0.steps.map (fun step => step.id) :=
  ⟨rfl, (c4_all_or_nothing defaultPolicyEngine P0 ctx0 A0 rfl).1,
    (c4_all_or_nothing defaultPolicyEngine P0 ctx0 A0 rfl).2.1⟩

/-- C8: the issued requires_confirmation flag equals the plan flag OR medium
or high risk OR the presence of a gmail send step (the sensitive-action
override applies regardless of computed risk). -/
theorem c8_requires_confirmation (pe : PolicyEngine) (plan : Plan)
    (ctx : Context) (a : Approval) (heval : pe.evaluate plan ctx = .ok a) :
    a.requires_confirmation =
      ((plan.requires_confirmation || plan.risk == "medium" || plan.risk == "high")
        || plan.steps.any (fun step => step.tool == "gmail" && step.action == "send")) := by
  obtain ⟨_, _, hrc, _, _⟩ := evaluate_ok_spec heval
  rw [hrc]
  rfl

/-- C8 witness: the low-risk, no-flag gmail-send plan `P8` still gets a
confirmation-requiring approval through the sensitive-send override. -/
theorem c8_requires_confirmation_witness :
    defaultPolicyEngine.evaluate P8 ctx0 = .ok A8 ∧
    A8.requires_confirmation =
      ((P8.requires_confirmation || P8.risk == "medium" || P8.risk == "high")
        || P8.steps.any (fun step => step.tool == "gmail" && step.action == "send")) ∧
    A8.requires_confirmation = true :=
  ⟨rfl, c8_requires_confirmation defaultPolicyEngine P8 ctx0 A8 rfl, rfl⟩

/-- C10: `compute_policy_signature` does not bind `origin` or `notes`: plans
differing only there sign identically, so an origin mutation after approval
passes signature verification unchanged, and the rejection of system plans
with a non-router origin comes from the per-step origin check of the
executor, which fires with exactly the router error. -/
theorem c10_origin_not_bound :
    (∀ (plan : Plan) (org nts : String) (aps : List String)
       (c : ApprovalConstraints) (rc : Bool) (secret : String),
      compute_policy_signature { plan with origin := org, notes := nts } aps c rc secret =
        compute_policy_signature plan aps c rc secret) ∧
    (∀ (pe : PolicyEngine) (ee : ExecutionEngine) (plan : Plan) (ctx : Context)
       (a : Approval) (o : String),
      ee.signature_secret = pe.signature_secret → plan.valid = true →
      plan.domain = "system" → o ≠ "router" →
      pe.evaluate plan ctx = .ok a →
      ee.execute { plan with origin := o } a = .error .systemPlanNotRouter) := by
  constructor
  · intro plan org nts aps c rc secret
    rfl
  · intro pe ee plan ctx a o hsec hvalid hdom horigin heval
    obtain ⟨ha, hastep, hrc, hcon, hsig⟩ := evaluate_ok_spec heval
    rw [← hsec] at hsig
    have hpay : compute_policy_signature { plan with origin := o } a.approved_steps
        a.constraints a.requires_confirmation ee.signature_secret =
        compute_policy_signature plan a.approved_steps a.constraints
          a.requires_confirmation ee.signature_secret := rfl
    rw [ExecutionEngine.execute, ha, hsig]
    simp only [Bool.not_true, Bool.false_eq_true, if_false, hpay, ne_eq,
      not_true_eq_false, if_neg, ite_false]
    cases hsteps : plan.steps with
    | nil =>
      exfalso
      unfold Plan.valid at hvalid
      rw [hsteps] at hvalid
      simp at hvalid
    | cons s rest =>
      have hc : a.approved_steps.contains s.id = true :=
        contains_of_mem (evaluate_ok_covers heval s
          (by rw [hsteps]; exact List.mem_cons_self s rest))
      rw [ExecutionEngine.execRemaining, hc]
      simp [hdom, bne_iff_ne, horigin]

/-- C10 witness: signing `P0` with planner origin and scratch notes equals
signing `P0`, and the origin-mutated `P2b` with the approval issued for `P0`
is stopped by the explicit origin check (not the signature check). -/
theorem c10_origin_not_bound_witness :
    compute_policy_signature { P0 with origin := "planner", notes := "x" }
        A0.approved_steps A0.constraints A0.requires_confirmation defaultSecret =
      compute_policy_signature P0 A0.approved_steps A0.constraints
        A0.requires_confirmation defaultSecret ∧
    EE0.execute { P0 with origin := "planner" } A0 = .error .systemPlanNotRouter :=
  ⟨c10_origin_not_bound.1 P0 "planner" "x" A0.approved_steps A0.constraints
      A0.requires_confirmation defaultSecret,
   c10_origin_not_bound.2 defaultPolicyEngine EE0 P0 ctx0 A0 "planner" rfl
     (by decide) rfl (by decide) rfl⟩

/-- C5: sanitizer redaction.  When the configured provider is outbound and the
input plan requires redaction, the sanitized steps are exactly the input
steps with every openai-tool step redacted argument-wise (strings to the
marker, the `to` key to the placeholder, non-strings untouched) and every
other step returned unchanged, identical to the input. -/
theorem c5_sanitizer_redaction (provider : String) (plan : Plan)
    (hout : is_outbound_llm_provider provider = true)
    (hrr : plan.data_outbound.redaction_required = true) :
    (sanitize_plan provider plan).steps = plan.steps.map redactStepSpec ∧
    (∀ s ∈ plan.steps, s.tool ≠ "openai" → redactStepSpec s = s) := by
  constructor
  · simp only [sanitize_plan, redact_openai_steps, mark_openai_outbound, hout, hrr]
    simp only [Bool.and_self, Bool.not_true, Bool.false_eq_true, if_false]
    simp only [List.map_inj_left]
    intro a ha
    by_cases h : a.tool = "openai"
    · rw [if_neg (by simp [h]), redactStepSpec, if_pos (by simp [h])]
      rfl
    · rw [if_pos (by simp [h]), redactStepSpec, if_neg (by simp [h])]
  · intro s hs htool
    simp [redactStepSpec, htool]

theorem clamp_le_one (x : ℚ) : clamp x ≤ 1 :=
  max_le (by norm_num) (min_le_left 1 x)

theorem clamp_nonneg (x : ℚ) : 0 ≤ clamp x := le_max_left 0 (min 1 x)

theorem clamp_mono {x y : ℚ} (h : x ≤ y) : clamp x ≤ clamp y :=
  max_le_max le_rfl (min_le_min le_rfl h)

theorem clamp_of_bounds {x : ℚ} (h0 : 0 ≤ x) (h1 : x ≤ 1) : clamp x = x := by
  unfold clamp
  rw [min_eq_right h1, max_eq_right h0]

/-- Model of `dict.get` after appending a fresh binding at the end: existing keys keep
their values, the new key resolves to the new value. -/
theorem argsGet_append (l : List (String × Val)) (f k : String) (v : Val) :
    argsGet (l ++ [(f, v)]) k =
      (match argsGet l k with
        | some w => some w
        | none => if f == k then some v else none) := by
  induction l with
  | nil =>
    simp only [argsGet, List.nil_append, List.find?]
    cases h : f == k <;> simp [h]
  | cons p rest ih =>
    simp only [argsGet, List.cons_append, List.find?] at *
    cases hp : p.1 == k <;> simp [hp] at *
    · exact ih

/-- With every required field present, `_check_required_fields` reports no
missing fields. -/
theorem check_required_all_present {step : PlanStep} {sp : IntentSpec}
    (hreq : ∀ g ∈ sp.required_fields, is_field_present (argsGet step.args g) = true) :
    check_required_fields step (some sp) = ([], true) := by
  unfold check_required_fields
  by_cases he : sp.required_fields.isEmpty = true
  · simp [he]
  · simp only [he, Bool.false_eq_true, if_false]
    have hfil : sp.required_fields.filter
        (fun g => !is_field_present (argsGet step.args g)) = [] :=
      List.filter_eq_nil_iff.mpr (fun a ha => by simp [hreq a ha])
    simp [hfil]

/-- With a registered spec and all required fields present, the parse score is
1 when a non-empty optional field adds clarity and 0.9 otherwise. -/
theorem score_parse_all_present (sp : IntentSpec) (args : List (String × Val))
    (missing : List String) :
    (score_parse_conf (some sp) args true missing).1 =
      (if !sp.optional_fields.isEmpty &&
          sp.optional_fields.any (fun f => is_field_present (argsGet args f))
        then 1 else 0.9) := by
  by_cases he : sp.optional_fields.isEmpty = true
  · simp [score_parse_conf, he, clamp]
    norm_num [min_def, max_def]
  · by_cases hany : sp.optional_fields.any
        (fun f => is_field_present (argsGet args f)) = true
    · simp [score_parse_conf, he, hany, clamp]
      norm_num [min_def, max_def]
    · simp [score_parse_conf, he, hany, clamp]
      norm_num [min_def, max_def]

/-- Retrieval falls back to the parse score when no provider is registered
for the intent. -/
theorem score_retrieval_unconfigured (ce : ConfidenceEngine) (parse : ℚ)
    (parsed : ParsedIntent) (sp : IntentSpec) (hp : ¬ parse < 0.4)
    (hfind : ce.retrieval_providers.find? (fun kv => kv.1 == sp.intent) = none) :
    (ce.score_retrieval_conf parse parsed (some sp) true []).1 = parse := by
  unfold ConfidenceEngine.score_retrieval_conf
  rw [if_neg (by simp), if_neg (by simpa using hp)]
  dsimp only
  rw [hfind]

/-- Retrieval clamps the value returned by the registered provider. -/
theorem score_retrieval_provider (ce : ConfidenceEngine) (parse : ℚ)
    (parsed : ParsedIntent) (sp : IntentSpec) (g : String × IntentRetrieval)
    (r : ℚ) (hp : ¬ parse < 0.4)
    (hfind : ce.retrieval_providers.find? (fun kv => kv.1 == sp.intent) = some g)
    (hok : g.2 parsed = .ok r) :
    (ce.score_retrieval_conf parse parsed (some sp) true []).1 = clamp r := by
  unfold ConfidenceEngine.score_retrieval_conf
  rw [if_neg (by simp), if_neg (by simpa using hp)]
  dsimp only
  rw [hfind]
  dsimp only
  rw [hok]

/-- The final confidence is the clamped weighted sum of the parse and
retrieval components. -/
theorem evaluate_step_final_formula (ce : ConfidenceEngine) (step : PlanStep)
    (sp : IntentSpec)
    (hspec : intentSpecFor step.tool step.action = some sp)
    (hcheck : check_required_fields step (some sp) = ([], true)) :
    (ce.evaluate_step step).final =
      clamp (0.6 * (score_parse_conf (some sp) step.args true []).1 +
        0.4 * (ce.score_retrieval_conf (score_parse_conf (some sp) step.args true []).1
          (build_parsed_intent step (some sp)) (some sp) true []).1) := by
  simp only [ConfidenceEngine.evaluate_step, hspec, hcheck]

/-- The final confidence never exceeds 1. -/
theorem evaluate_step_final_le_one (ce : ConfidenceEngine) (step : PlanStep) :
    (ce.evaluate_step step).final ≤ 1 := by
  unfold ConfidenceEngine.evaluate_step
  exact clamp_le_one _

/-- C6 support: a member failing a membership-style filter keeps the filter
non-empty. -/
theorem filter_isEmpty_false_of_mem {α : Type} {p : α → Bool} {l : List α}
    {x : α} (hx : x ∈ l.filter p) : (l.filter p).isEmpty = false := by
  cases hc : l.filter p with
  | nil => rw [hc] at hx; cases hx
  | cons y ys => rfl

/-- C6: missing-field gating.  A step with a registered intent spec and at
least one missing or blank required field never gets an execute or
soft-confirm decision: the decision is clarify exactly when some argument
carries a non-empty value, and block otherwise. -/
theorem c6_missing_field_gating (ce : ConfidenceEngine) (step : PlanStep)
    (sp : IntentSpec) (f : String)
    (hspec : intentSpecFor step.tool step.action = some sp)
    (hf : f ∈ sp.required_fields)
    (hmiss : is_field_present (argsGet step.args f) = false) :
    ((ce.evaluate_step step).decision = "clarify" ∨
      (ce.evaluate_step step).decision = "block") ∧
    (ce.evaluate_step step).decision ≠ "execute" ∧
    (ce.evaluate_step step).decision ≠ "soft_confirm" ∧
    ((ce.evaluate_step step).decision = "clarify" ↔
      has_meaningful_input step.args = true) := by
  have hre : sp.required_fields.isEmpty = false := by
    cases hrf : sp.required_fields with
    | nil => rw [hrf] at hf; cases hf
    | cons x xs => rfl
  have hmem : f ∈ sp.required_fields.filter
      (fun g => !is_field_present (argsGet step.args g)) :=
    List.mem_filter.mpr ⟨hf, by simp [hmiss]⟩
  have hfil : (sp.required_fields.filter
      (fun g => !is_field_present (argsGet step.args g))).isEmpty = false :=
    filter_isEmpty_false_of_mem hmem
  have hcheck : check_required_fields step (some sp) =
      (sp.required_fields.filter (fun g => !is_field_present (argsGet step.args g)),
        false) := by
    simp only [check_required_fields, hre, Bool.false_eq_true, if_false]
    rw [hfil]
  have hdec : (ce.evaluate_step step).decision =
      (if has_meaningful_input step.args then "clarify" else "block") := by
    simp only [ConfidenceEngine.evaluate_step, hspec, hcheck]
    simp [hfil]
  rw [hdec]
  cases hm : has_meaningful_input step.args <;> simp [hm]

/-- C6 witness: the gmail send step `step6` has the required subject missing,
so the decision is forced to clarify (it has the non-empty recipient). -/
theorem c6_missing_field_gating_witness :
    intentSpecFor step6.tool step6.action = some spGmail ∧
    is_field_present (argsGet step6.args "subject") = false ∧
    ((ce0.evaluate_step step6).decision = "clarify" ∨
      (ce0.evaluate_step step6).decision = "block") ∧
    ((ce0.evaluate_step step6).decision = "clarify" ↔
      has_meaningful_input step6.args = true) :=
  ⟨rfl, rfl,
   (c6_missing_field_gating ce0 step6 spGmail "subject" rfl (by decide) rfl).1,
   (c6_missing_field_gating ce0 step6 spGmail "subject" rfl (by decide) rfl).2.2.2⟩

/-- C7: breaker state machine with failure_threshold 2.  Two consecutive
failures from CLOSED open the breaker; once the cooldown has elapsed the next
allow_request returns true and moves to HALF_OPEN; a failure while HALF_OPEN
reopens; a success while HALF_OPEN closes with a zeroed failure count. -/
theorem c7_breaker_state_machine (cd : ℚ) (e1 e2 e3 : PyException)
    (t1 t2 t3 now : ℚ) (b1 b2 b3 : LLMHealthCircuitBreaker) (allowed : Bool)
    (hnow : t2 + cd ≤ now)
    (hb1 : b1 = (mkBreaker 2 cd).record_failure e1 t1)
    (hb2 : b2 = b1.record_failure e2 t2)
    (hb3 : b2.allow_request now = (allowed, b3)) :
    b1.state = "CLOSED" ∧ b2.state = "OPEN" ∧ allowed = true ∧
    b3.state = "HALF_OPEN" ∧
    (b3.record_failure e3 t3).state = "OPEN" ∧
    b3.record_success.state = "CLOSED" ∧ b3.record_success.fail_count = 0 := by
  have h1 : b1 = ⟨2, cd, 4, "CLOSED", 1, some (sanitize_error e1), none⟩ := by
    rw [hb1]
    simp [mkBreaker, LLMHealthCircuitBreaker.record_failure]
  have h2 : b2 = ⟨2, cd, 4, "OPEN", 2, some (sanitize_error e2), some t2⟩ := by
    rw [hb2, h1]
    simp [LLMHealthCircuitBreaker.record_failure, LLMHealthCircuitBreaker.open_breaker]
  rw [h2] at hb3
  unfold LLMHealthCircuitBreaker.allow_request at hb3
  simp only [beq_self_eq_true, if_true] at hb3
  rw [if_pos hnow] at hb3
  simp only [Prod.mk.injEq] at hb3
  obtain ⟨ha, hb⟩ := hb3
  subst ha
  refine ⟨by rw [h1], by rw [h2], rfl, by rw [← hb], ?_, ?_, ?_⟩
  · rw [← hb]
    simp [LLMHealthCircuitBreaker.record_failure, LLMHealthCircuitBreaker.open_breaker]
  · rw [← hb]
    rfl
  · rw [← hb]
    rfl

/-- C7 witness: concrete run with zero cooldown at time zero. -/
theorem c7_breaker_state_machine_witness :
    ((mkBreaker 2 0).record_failure err0 0).state = "CLOSED" ∧
    (((mkBreaker 2 0).record_failure err0 0).record_failure err0 0).state = "OPEN" ∧
    ((((mkBreaker 2 0).record_failure err0 0).record_failure err0 0).allow_request 0).1
      = true ∧
    ((((mkBreaker 2 0).record_failure err0 0).record_failure err0 0).allow_request 0).2.state
      = "HALF_OPEN" ∧
    (((((mkBreaker 2 0).record_failure err0 0).record_failure err0 0).allow_request 0).2.record_failure
      err0 0).state = "OPEN" ∧
    ((((mkBreaker 2 0).record_failure err0 0).record_failure err0 0).allow_request 0).2.record_success.state
      = "CLOSED" ∧
    ((((mkBreaker 2 0).record_failure err0 0).record_failure err0 0).allow_request 0).2.record_success.fail_count
      = 0 := by
  have h := c7_breaker_state_machine 0 err0 err0 err0 0 0 0 0
    ((mkBreaker 2 0).record_failure err0 0)
    (((mkBreaker 2 0).record_failure err0 0).record_failure err0 0)
    ((((mkBreaker 2 0).record_failure err0 0).record_failure err0 0).allow_request 0).2
    ((((mkBreaker 2 0).record_failure err0 0).record_failure err0 0).allow_request 0).1
    (by simp) rfl rfl rfl
  exact ⟨h.1, h.2.1, h.2.2.1, h.2.2.2.1, h.2.2.2.2.1, h.2.2.2.2.2.1, h.2.2.2.2.2.2⟩

/-- C9 counterexample: with the artist-penalizing retrieval callback `g9`
registered for `media.play`, adding the non-empty optional artist argument to
the spotify step strictly DECREASES the final score (0.94 drops to 0.6), so
`evaluate_step` is not monotone in optional-field coverage as claimed. -/
theorem c9_confidence_monotonicity_counterexample :
    (ce9.evaluate_step step9b).final < (ce9.evaluate_step step9a).final := by
  have hcheck_a : check_required_fields step9a (some spSpotify) = ([], true) := by decide
  have hcheck_b : check_required_fields step9b (some spSpotify) = ([], true) := by decide
  have hca : (!spSpotify.optional_fields.isEmpty && spSpotify.optional_fields.any
      (fun f => is_field_present (argsGet step9a.args f))) = false := by decide
  have hpa : (score_parse_conf (some spSpotify) step9a.args true []).1 = 0.9 := by
    rw [score_parse_all_present, hca]
    simp
  have hpb : (score_parse_conf (some spSpotify) step9b.args true []).1 = 1 := by
    rw [score_parse_all_present]
    rw [show (!spSpotify.optional_fields.isEmpty && spSpotify.optional_fields.any
      (fun f => is_field_present (argsGet step9b.args f))) = true from by decide]
    simp
  have hfind : ce9.retrieval_providers.find?
      (fun kv => kv.1 == spSpotify.intent) = some ("media.play", g9) := rfl
  rw [evaluate_step_final_formula ce9 step9a spSpotify rfl hcheck_a,
      evaluate_step_final_formula ce9 step9b spSpotify rfl hcheck_b,
      hpa, hpb,
      score_retrieval_provider ce9 0.9 (build_parsed_intent step9a (some spSpotify))
        spSpotify ("media.play", g9) 1 (by norm_num) hfind rfl,
      score_retrieval_provider ce9 1 (build_parsed_intent step9b (some spSpotify))
        spSpotify ("media.play", g9) 0 (by norm_num) hfind rfl]
  norm_num [clamp, min_def, max_def]

/-- C9 (amended): monotonicity of the final score holds once the retrieval
component is held fixed.  When no retrieval provider is registered for the
intent, adding a non-empty optional field to the arguments never decreases
the final score (the original claim failed here because a registered callback
sees the enriched parsed intent and may return less); and for a fixed step
whose parse score is at or above the 0.4 retrieval threshold, a registered
callback returning a larger value never yields a smaller final score. -/
theorem c9_confidence_monotonicity_amended :
    (∀ (ce : ConfidenceEngine) (step step2 : PlanStep) (sp : IntentSpec)
       (f : String) (v : Val),
      intentSpecFor step.tool step.action = some sp →
      ce.retrieval_providers.find? (fun kv => kv.1 == sp.intent) = none →
      (∀ g ∈ sp.required_fields, is_field_present (argsGet step.args g) = true) →
      argsGet step.args f = none →
      is_field_present (some v) = true →
      f ∈ sp.optional_fields →
      step2.tool = step.tool → step2.action = step.action →
      step2.args = step.args ++ [(f, v)] →
      (ce.evaluate_step step).final ≤ (ce.evaluate_step step2).final) ∧
    (∀ (ce1 ce2 : ConfidenceEngine) (step : PlanStep) (sp : IntentSpec)
       (g1 g2 : String × IntentRetrieval) (r1 r2 : ℚ),
      intentSpecFor step.tool step.action = some sp →
      (∀ g ∈ sp.required_fields, is_field_present (argsGet step.args g) = true) →
      ce1.retrieval_providers.find? (fun kv => kv.1 == sp.intent) = some g1 →
      ce2.retrieval_providers.find? (fun kv => kv.1 == sp.intent) = some g2 →
      g1.2 (build_parsed_intent step (some sp)) = .ok r1 →
      g2.2 (build_parsed_intent step (some sp)) = .ok r2 →
      r1 ≤ r2 →
      (ce1.evaluate_step step).final ≤ (ce2.evaluate_step step).final) := by
  constructor
  · intro ce step step2 sp f v hspec hfind hreq hnew hv hopt htool haction hargs
    have hspec2 : intentSpecFor step2.tool step2.action = some sp := by
      rw [htool, haction]; exact hspec
    have hreq2 : ∀ g ∈ sp.required_fields,
        is_field_present (argsGet step2.args g) = true := by
      intro g hg
      rw [hargs, argsGet_append]
      have hgp := hreq g hg
      cases hag : argsGet step.args g with
      | none => rw [hag] at hgp; simp [is_field_present] at hgp
      | some w => simp only [hag]; rw [hag] at hgp; exact hgp
    have hcheck2 : check_required_fields step2 (some sp) = ([], true) :=
      check_required_all_present hreq2
    have hfp : argsGet step2.args f = some v := by
      rw [hargs, argsGet_append, hnew]
      simp
    have hne : sp.optional_fields.isEmpty = false := by
      cases hof : sp.optional_fields with
      | nil => rw [hof] at hopt; cases hopt
      | cons x xs => rfl
    have hparse2 : (score_parse_conf (some sp) step2.args true []).1 = 1 := by
      rw [score_parse_all_present]
      have hcond : (!sp.optional_fields.isEmpty && sp.optional_fields.any
          (fun k => is_field_present (argsGet step2.args k))) = true := by
        rw [hne]
        simp only [Bool.not_false, Bool.true_and]
        exact List.any_eq_true.mpr ⟨f, hopt, by rw [hfp]; exact hv⟩
      rw [hcond]
      simp
    have hret2 : (ce.score_retrieval_conf 1 (build_parsed_intent step2 (some sp))
        (some sp) true []).1 = 1 :=
      score_retrieval_unconfigured ce 1 _ sp (by norm_num) hfind
    have hfinal2 : (ce.evaluate_step step2).final = 1 := by
      rw [evaluate_step_final_formula ce step2 sp hspec2 hcheck2, hparse2, hret2]
      norm_num [clamp, min_def, max_def]
    rw [hfinal2]
    exact evaluate_step_final_le_one ce step
  · intro ce1 ce2 step sp g1 g2 r1 r2 hspec hreq hf1 hf2 hok1 hok2 hr
    have hcheck := check_required_all_present hreq
    have hp04 : ¬ (score_parse_conf (some sp) step.args true []).1 < 0.4 := by
      rw [score_parse_all_present]
      split <;> norm_num
    rw [evaluate_step_final_formula ce1 step sp hspec hcheck,
        evaluate_step_final_formula ce2 step sp hspec hcheck,
        score_retrieval_provider ce1 _ _ sp g1 r1 hp04 hf1 hok1,
        score_retrieval_provider ce2 _ _ sp g2 r2 hp04 hf2 hok2]
    exact clamp_mono (by linarith [clamp_mono hr])

/-- C9 witness: with no provider registered, adding the artist to the spotify
step does not decrease the final score; and for providers returning 0 and 1
the final score with the larger retrieval value is at least as large. -/
theorem c9_confidence_monotonicity_amended_witness :
    intentSpecFor step9a.tool step9a.action = some spSpotify ∧
    (ce0.evaluate_step step9a).final ≤ (ce0.evaluate_step step9b).final ∧
    (ce9low.evaluate_step step9a).final ≤ (ce9high.evaluate_step step9a).final :=
  ⟨rfl,
   c9_confidence_monotonicity_amended.1 ce0 step9a step9b spSpotify "artist"
     (.str "beatles") rfl rfl (by decide) rfl (by decide) (by decide) rfl rfl rfl,
   c9_confidence_monotonicity_amended.2 ce9low ce9high step9a spSpotify
     ("media.play", g9low) ("media.play", g9high) 0 1 rfl (by decide) rfl rfl
     rfl rfl (by decide)⟩

/-- C5 witness: with the outbound provider `openai`, the plan `P5` has its
openai step fully redacted (prompt to the marker, `to` to the placeholder,
the integer argument untouched) while the gmail step is unchanged. -/
theorem c5_sanitizer_redaction_witness :
    is_outbound_llm_provider "openai" = true ∧
    P5.data_outbound.redaction_required = true ∧
    (sanitize_plan "openai" P5).steps = P5.steps.map redactStepSpec ∧
    redactStepSpec stepT = stepT :=
  ⟨by decide, rfl,
   (c5_sanitizer_redaction "openai" P5 (by decide) rfl).1,
   (c5_sanitizer_redaction "openai" P5 (by decide) rfl).2 stepT (by simp [P5]) (by decide)⟩

end Victus
